import Mathlib

/-!
Shallow embedding of the HTTP-to-Slack bridge in `src/app.js`.

The three request handlers relevant to the claims —
`POST /api/get-messages`, `POST /api/send-message` and `POST /webhook` —
are modelled as pure functions from a parsed request and a `SlackWorld`
(the upstream responses Slack would give to each Web-API call) to a
response value paired with the ordered list of upstream API calls the
handler performs.  The handlers in `app.js` use only local variables and
the stateless `app.client`, so the outcome of a request is a function of that
request and the upstream responses alone; the trace component makes the
sequence of upstream calls (and their arguments) visible to theorems.

Conventions:
* JavaScript falsy-or-absent fields are modelled as `none`; a supplied
  truthy field is `some v`.  `a || b` on such fields is `orD a b`.
* A rejected Slack SDK promise is `Except.error` carrying the error
  `message` and the optional `data.error` code / `data.needed` scope.
* `String.replace('#', '')` removes only the first occurrence, which
  `stripHash` mirrors; `/^[CGDU]/` is `idShaped`.
-/

namespace SlackBot

/-- JS `channel.replace('#', '')`: with a string pattern, `replace`
removes only the first occurrence of `#`, wherever it appears. -/
def removeFirstHash : List Char → List Char
  | [] => []
  | c :: cs => if c = '#' then cs else c :: removeFirstHash cs

/-- The `channelId = channel.replace('#', '')` step (app.js line 73). -/
def stripHash (s : String) : String := String.mk (removeFirstHash s.data)

/-- The `channelId.match(/^[CGDU]/)` test (app.js line 75): true exactly
when the first character is one of `C`, `G`, `D`, `U`. -/
def idShaped (s : String) : Bool :=
  match s.data with
  | [] => false
  | c :: _ => c == 'C' || c == 'G' || c == 'D' || c == 'U'

/-- JS `a || b` over modelled optional fields: the left value when it is
supplied and truthy, otherwise the right. -/
def orD {α : Type} : Option α → Option α → Option α
  | some a, _ => some a
  | none, b => b

/-- A rejected Slack Web-API call: `message`, plus the optional
`data.error` code and `data.needed` scope that `app.js` inspects. -/
structure SlackErr where
  message : String
  code : Option String
  needed : Option String
  deriving DecidableEq, Repr

/-- A channel object as returned by `conversations.list` /
`conversations.info`: the two fields the handlers read. -/
structure SlackChannel where
  id : String
  name : String
  deriving DecidableEq, Repr

/-- A raw message from `conversations.history`, restricted to the fields
read by the formatting map at app.js lines 168-178. -/
structure SlackMsg where
  ts : String
  user : Option String
  username : Option String
  text : String
  type : String
  thread_ts : Option String
  reply_count : Option Nat
  reactions : Option (List String)
  deriving DecidableEq, Repr

/-- One reshaped message of the `/api/get-messages` 200 body. -/
structure FormattedMsg where
  timestamp : String
  user : String
  username : Option String
  text : String
  type : String
  thread_ts : Option String
  is_thread_parent : Bool
  reply_count : Nat
  reactions : List String
  deriving DecidableEq, Repr

/-- The formatting map (app.js lines 168-178).  `msg.reply_count ? ... `
is truthy exactly for a present non-zero count. -/
def formatMsg (m : SlackMsg) : FormattedMsg :=
  { timestamp := m.ts
    user := m.user.getD "bot"
    username := m.username
    text := m.text
    type := m.type
    thread_ts := m.thread_ts
    is_thread_parent := match m.reply_count with
      | some n => n != 0
      | none => false
    reply_count := m.reply_count.getD 0
    reactions := m.reactions.getD [] }

/-- A successful `conversations.history` result: the fields the handler
reads (each guarded with `|| default` or `?.` in the source). -/
structure HistoryResult where
  messages : Option (List SlackMsg)
  has_more : Option Bool
  next_cursor : Option String
  deriving DecidableEq, Repr

/-- A successful `chat.postMessage` result (fields echoed back). -/
structure PostResult where
  ts : Option String
  channel : Option String
  thread_ts : Option String
  deriving DecidableEq, Repr

/-- The `messagePayload` object handed to `chat.postMessage`.  Block and
attachment array elements are uninterpreted JSON objects, modelled as strings;
a field that the handler does not set is `none` (absent from the JSON). -/
structure PostPayload where
  channel : String
  text : String
  username : Option String
  thread_ts : Option String
  icon_url : Option String
  icon_emoji : Option String
  blocks : Option (List String)
  attachments : Option (List String)
  deriving DecidableEq, Repr

/-- One upstream Slack Web-API invocation, with the arguments the
handler chose.  The two `conversations.list` calls carry fixed options
(`types`, `limit: 200`) in the source, so they need no parameters here. -/
inductive ApiCall where
  | listPublicChannels
  | listPrivateChannels
  | convInfo (channel : String)
  | convJoin (channel : String)
  | convHistory (channel : String) (limit : Int) (cursor : Option String)
  | postMessage (payload : PostPayload)
  deriving DecidableEq, Repr

/-- The upstream behaviour: what Slack answers to each call a handler
might make during one request. -/
structure SlackWorld where
  publicList : Except SlackErr (List SlackChannel)
  privateList : Except SlackErr (List SlackChannel)
  info : String → Except SlackErr SlackChannel
  join : String → Except SlackErr Unit
  history : String → Int → Option String → Except SlackErr HistoryResult
  postResult : PostPayload → Except SlackErr PostResult

/-- The parsed `/api/get-messages` request.  `channel` and `cursor`
merge body and query-string as `body.x || req.query.x` does; `limit` is
the `parseInt` result of the supplied limit field when it parses to a
number, `none` when no limit was supplied (the source then parses the
default `10`). -/
structure GmRequest where
  channel : Option String
  limit : Option Int
  cursor : Option String
  deriving DecidableEq, Repr

/-- A `/api/get-messages` JSON response body, one constructor per
`res.status(...).json(...)` site of the handler.  Constant strings of
the source appear at the construction sites below; `\x27` is an
apostrophe and `\x22`-style escapes are avoided by using `\"`. -/
inductive GmResp where
  | missingChannel (error : String)
      (required_fields optional_fields : List (String × String))
  | resolveNotFound (error details hint solution : String)
  | lookupFailed (error details : String)
  | missingScope (error : String) (needed_scope : Option String)
      (details : String) (steps : List String)
  | memberRequired (error details solution : String) (channel_id : String)
  | notFound (error details hint : String)
  | upstreamFailure (error : String) (error_type : Option String)
      (details : String)
  | ok (channel channel_id : String) (message_count : Nat)
      (messages : List FormattedMsg) (has_more : Bool)
      (next_cursor : Option String)
  deriving DecidableEq, Repr

/-- The HTTP status the handler attaches to each response body
(the `res.status(...)` argument at the corresponding site). -/
def GmResp.status : GmResp → Nat
  | .missingChannel _ _ _ => 400
  | .resolveNotFound _ _ _ _ => 404
  | .lookupFailed _ _ => 500
  | .missingScope _ _ _ _ => 403
  | .memberRequired _ _ _ _ => 403
  | .notFound _ _ _ => 404
  | .upstreamFailure _ _ _ => 500
  | .ok _ _ _ _ _ _ => 200

/-- The `error` string of the resolution 404 (app.js line 107):
a literal prefix, the token between apostrophes, and a literal suffix. -/
def resolveErrMsg (channelId : String) : String :=
  "Channel \x27" ++ channelId ++ "\x27 not found"

/-- The `steps` array of the missing-scope 403 (app.js lines 140-147). -/
def missingScopeSteps : List String :=
  ["1. Go to https://api.slack.com/apps",
   "2. Select your app",
   "3. Go to OAuth & Permissions > Scopes",
   "4. Add \"channels:join\" to Bot Token Scopes",
   "5. Reinstall/update the bot token",
   "6. Retry the request"]

/-- Channel-name resolution, app.js lines 75-124 (the non-ID branch):
search the public listing by exact name, then the private listing, then
`conversations.info`; a listing failure is the 500 at line 119, an info
failure the 404 at line 106.  Returns the resolved id or the error
response, together with the upstream calls made. -/
def resolveChannel (channelId : String) (w : SlackWorld) :
    Except GmResp String × List ApiCall :=
  match w.publicList with
  | .error e =>
      (.error (.lookupFailed "Failed to lookup channel" e.message),
       [.listPublicChannels])
  | .ok pubs =>
    match pubs.find? (fun ch => ch.name == channelId) with
    | some found => (.ok found.id, [.listPublicChannels])
    | none =>
      match w.privateList with
      | .error e =>
          (.error (.lookupFailed "Failed to lookup channel" e.message),
           [.listPublicChannels, .listPrivateChannels])
      | .ok privs =>
        match privs.find? (fun ch => ch.name == channelId) with
        | some found =>
            (.ok found.id, [.listPublicChannels, .listPrivateChannels])
        | none =>
          match w.info channelId with
          | .ok chInfo =>
              (.ok chInfo.id,
               [.listPublicChannels, .listPrivateChannels,
                .convInfo channelId])
          | .error _ =>
              (.error (.resolveNotFound (resolveErrMsg channelId)
                 "Use channel ID instead of name"
                 "Try using C1234567890 format instead of \"general\""
                 "Use /api/list-channels endpoint to get channel IDs"),
               [.listPublicChannels, .listPrivateChannels,
                .convInfo channelId])

/-- The outer catch block of the handler, app.js lines 189-215: it sees
the errors thrown by `conversations.join` (rethrown at line 152) and by
`conversations.history`, and translates `not_in_channel`,
`channel_not_found` and everything else. -/
def outerCatch (channel channelId : String) (e : SlackErr) : GmResp :=
  if e.code = some "not_in_channel" then
    .memberRequired "Bot is not a member of this channel"
      "Add the bot to the channel first. Go to Slack > channel > Add members > search for your bot app"
      ("Invite the bot to #" ++ channel ++ " using Slack UI, then try again")
      channelId
  else if e.code = some "channel_not_found" then
    .notFound "Channel not found" "Use channel ID instead of name"
      "Try /api/list-channels to get all available channels with their IDs"
  else
    .upstreamFailure e.message e.code "Failed to retrieve messages from Slack"

/-- The `conversations.history` call and the 200 reshaping, app.js
lines 157-188; a rejected call falls to the outer catch. -/
def fetchHistory (channel channelId : String) (limit : Int)
    (cursor : Option String) (w : SlackWorld) (calls : List ApiCall) :
    GmResp × List ApiCall :=
  let fwd := min limit 100
  match w.history channelId fwd cursor with
  | .ok r =>
      let msgs := (r.messages.getD []).map formatMsg
      (.ok channel channelId msgs.length msgs (r.has_more.getD false)
         r.next_cursor,
       calls ++ [.convHistory channelId fwd cursor])
  | .error e =>
      (outerCatch channel channelId e,
       calls ++ [.convHistory channelId fwd cursor])

/-- The join attempt, app.js lines 126-155: a `missing_scope` failure
returns the 403 at line 136; `not_in_channel` / `channel_not_found` are
rethrown to the outer catch; any other failure (such as
`already_in_channel`) is tolerated and the history fetch proceeds. -/
def joinAndFetch (channel channelId : String) (limit : Int)
    (cursor : Option String) (w : SlackWorld) : GmResp × List ApiCall :=
  match w.join channelId with
  | .ok _ => fetchHistory channel channelId limit cursor w [.convJoin channelId]
  | .error je =>
    if je.code = some "missing_scope" then
      (.missingScope "Bot missing required scope" je.needed
         "Add \"channels:join\" scope to your bot app" missingScopeSteps,
       [.convJoin channelId])
    else if je.code = some "not_in_channel" ∨ je.code = some "channel_not_found" then
      (outerCatch channel channelId je, [.convJoin channelId])
    else
      fetchHistory channel channelId limit cursor w [.convJoin channelId]

/-- The `limit = parseInt(body.limit || req.query.limit || 10)` step
(app.js line 60): the parsed number when a limit was supplied, else the
parse of the literal default `10`. -/
def parsedLimit (req : GmRequest) : Int :=
  match req.limit with
  | some n => n
  | none => 10

/-- The full `POST /api/get-messages` handler, app.js lines 57-216. -/
def getMessages (req : GmRequest) (w : SlackWorld) : GmResp × List ApiCall :=
  match req.channel with
  | none =>
      (.missingChannel "channel required" [("channel", "string")]
         [("limit", "number (default: 10, max: 100)"),
          ("cursor", "string (for pagination)")],
       [])
  | some channel =>
    let limit : Int := parsedLimit req
    let channelId := stripHash channel
    if idShaped channelId then
      joinAndFetch channel channelId limit req.cursor w
    else
      match resolveChannel channelId w with
      | (.error resp, calls) => (resp, calls)
      | (.ok cid, calls) =>
        let next := joinAndFetch channel cid limit req.cursor w
        (next.1, calls ++ next.2)

/-- A sequence of independent requests served by the stateless app: the
handler closes over no mutable server state (app.js lines 57-216 use
only local variables), so serving is `map`. -/
def serveAll (reqs : List (GmRequest × SlackWorld)) :
    List (GmResp × List ApiCall) :=
  reqs.map fun p => getMessages p.1 p.2

/-- A JSON value supplied for an array-typed optional field: either an
array (elements uninterpreted, as strings) or some truthy non-array value.  An
absent or falsy field is `none` at the `Option JsonVal` layer. -/
inductive JsonVal where
  | arr (xs : List String)
  | nonArray
  deriving DecidableEq, Repr

/-- The parsed `/api/send-message` request (app.js lines 13-28):
`channel` and `message` merge body and query as `body.x || req.query.x`;
`thread_ts` is `body.thread_ts || body.thread_timestamp`; `blocks` and
`attachments` come from the body and may be non-arrays. -/
structure SmRequest where
  channel : Option String
  message : Option String
  thread_ts : Option String
  blocks : Option JsonVal
  attachments : Option JsonVal
  deriving DecidableEq, Repr

/-- A `/api/send-message` response body, one constructor per
`res.status(...).json(...)` site. -/
inductive SmResp where
  | missingFields (error : String)
      (required_fields optional_fields : List (String × String))
  | sent (message : String) (timestamp channel thread_ts : Option String)
  | failed (error details : String)
  deriving DecidableEq, Repr

/-- Status attached to each `/api/send-message` body. -/
def SmResp.status : SmResp → Nat
  | .missingFields _ _ _ => 400
  | .sent _ _ _ _ => 200
  | .failed _ _ => 500

/-- The `POST /api/send-message` handler, app.js lines 13-55. -/
def sendMessage (req : SmRequest) (w : SlackWorld) : SmResp × List ApiCall :=
  match req.channel, req.message with
  | some channel, some message =>
    let payload : PostPayload :=
      { channel := stripHash channel
        text := message
        username := none
        thread_ts := req.thread_ts
        icon_url := none
        icon_emoji := none
        blocks := match req.blocks with
          | some (.arr xs) => some xs
          | _ => none
        attachments := match req.attachments with
          | some (.arr xs) => some xs
          | _ => none }
    match w.postResult payload with
    | .ok r =>
        (.sent ("Sent to " ++ channel) r.ts r.channel r.thread_ts,
         [.postMessage payload])
    | .error e =>
        (.failed e.message "Failed to send message to Slack",
         [.postMessage payload])
  | _, _ =>
      (.missingFields "channel and message required"
         [("channel", "string"), ("message", "string")]
         [("thread_ts", "string"), ("blocks", "array"),
          ("attachments", "array")],
       [])

/-- The optional fields a webhook body (or its nested `payload` object)
may carry, app.js lines 303-308. -/
structure WhFields where
  text : Option String
  channel : Option String
  username : Option String
  icon_url : Option String
  icon_emoji : Option String
  attachments : Option JsonVal
  deriving DecidableEq, Repr

/-- The parsed `/webhook` request body: its own fields plus the
optional nested `payload` object consulted by `body.payload?.x`. -/
structure WhBody where
  fields : WhFields
  payload : Option WhFields
  deriving DecidableEq, Repr

/-- A `/webhook` response body, one constructor per
`res.status(...).json(...)` site. -/
inductive WhResp where
  | missingText (error : String) (required_fields optional_fields : List String)
  | posted (message channel : String) (ts : Option String)
  | failed (error details : String)
  deriving DecidableEq, Repr

/-- Status attached to each `/webhook` body. -/
def WhResp.status : WhResp → Nat
  | .missingText _ _ _ => 400
  | .posted _ _ _ => 200
  | .failed _ _ => 500

/-- Field resolution `body.x || body.payload?.x` (app.js lines 303-308). -/
def whGet {α : Type} (b : WhBody) (f : WhFields → Option α) : Option α :=
  orD (f b.fields) (b.payload.bind f)

/-- The `channel` default chain of the webhook handler (app.js line
304): body, then nested payload, then `SLACK_DEFAULT_CHANNEL`, then the
literal `#general`. -/
def whChannel (b : WhBody) (defaultChannel : Option String) : String :=
  (orD (whGet b WhFields.channel) defaultChannel).getD "#general"

/-- The `messagePayload` the webhook handler builds for
`chat.postMessage` (app.js lines 318-332): `icon_url` wins over
`icon_emoji`; an array-valued `attachments` is forwarded as `blocks`;
the payload itself never carries an `attachments` field. -/
def webhookPayload (b : WhBody) (defaultChannel : Option String)
    (text : String) : PostPayload :=
  let iconUrl := whGet b WhFields.icon_url
  { channel := stripHash (whChannel b defaultChannel)
    text := text
    username := some ((whGet b WhFields.username).getD "webhook-bot")
    thread_ts := none
    icon_url := iconUrl
    icon_emoji := match iconUrl with
      | some _ => none
      | none => whGet b WhFields.icon_emoji
    blocks := match whGet b WhFields.attachments with
      | some (.arr xs) => some xs
      | _ => none
    attachments := none }

/-- The `POST /webhook` handler, app.js lines 299-349.  `defaultChannel`
models `process.env.SLACK_DEFAULT_CHANNEL` (`none` when unset or empty,
falling through to the literal `#general`). -/
def webhook (b : WhBody) (defaultChannel : Option String) (w : SlackWorld) :
    WhResp × List ApiCall :=
  match whGet b WhFields.text with
  | none =>
      (.missingText "Missing required field: text" ["text"]
         ["channel", "username", "icon_url", "icon_emoji", "attachments"],
       [])
  | some text =>
    let payload := webhookPayload b defaultChannel text
    match w.postResult payload with
    | .ok r =>
        (.posted "Message posted to Slack" (whChannel b defaultChannel) r.ts,
         [.postMessage payload])
    | .error e =>
        (.failed e.message "Failed to post webhook message to Slack",
         [.postMessage payload])

/-! ### Structural lemmas about the get-messages pipeline -/

/-- The history fetch always records exactly one `conversations.history`
call, with the clamped limit, whatever Slack answers. -/
lemma fetchHistory_calls (channel cid : String) (l : Int) (cur : Option String)
    (w : SlackWorld) (calls : List ApiCall) :
    (fetchHistory channel cid l cur w calls).2
      = calls ++ [ApiCall.convHistory cid (min l 100) cur] := by
  unfold fetchHistory
  rcases h : w.history cid (min l 100) cur with e | r <;> simp [h]

/-- A failed history fetch answers with the outer-catch translation. -/
lemma fetchHistory_error (channel cid : String) (l : Int) (cur : Option String)
    (w : SlackWorld) (calls : List ApiCall) (e : SlackErr)
    (h : w.history cid (min l 100) cur = .error e) :
    (fetchHistory channel cid l cur w calls).1 = outerCatch channel cid e := by
  unfold fetchHistory
  simp [h]

/-- When the join succeeds, the trace is the join then the history call. -/
lemma joinAndFetch_trace_ok (channel cid : String) (l : Int)
    (cur : Option String) (w : SlackWorld) (u : Unit)
    (h : w.join cid = .ok u) :
    (joinAndFetch channel cid l cur w).2
      = [ApiCall.convJoin cid, ApiCall.convHistory cid (min l 100) cur] := by
  unfold joinAndFetch
  rw [h]
  dsimp only
  rw [fetchHistory_calls]
  rfl

/-- When the join fails recoverably (not `missing_scope`,
`not_in_channel` or `channel_not_found`), the history fetch still runs. -/
lemma joinAndFetch_trace_recover (channel cid : String) (l : Int)
    (cur : Option String) (w : SlackWorld) (je : SlackErr)
    (h : w.join cid = .error je)
    (h1 : je.code ≠ some "missing_scope")
    (h2 : je.code ≠ some "not_in_channel")
    (h3 : je.code ≠ some "channel_not_found") :
    (joinAndFetch channel cid l cur w).2
      = [ApiCall.convJoin cid, ApiCall.convHistory cid (min l 100) cur] := by
  unfold joinAndFetch
  rw [h]
  dsimp only
  rw [if_neg h1, if_neg (by simp [h2, h3])]
  rw [fetchHistory_calls]
  rfl

/-- When the join fails with one of the three surfaced codes, the
handler stops: only the join call is recorded. -/
lemma joinAndFetch_trace_stop (channel cid : String) (l : Int)
    (cur : Option String) (w : SlackWorld) (je : SlackErr)
    (h : w.join cid = .error je)
    (hcode : je.code = some "missing_scope" ∨ je.code = some "not_in_channel"
      ∨ je.code = some "channel_not_found") :
    (joinAndFetch channel cid l cur w).2 = [ApiCall.convJoin cid] := by
  unfold joinAndFetch
  rw [h]
  dsimp only
  rcases hcode with hc | hc | hc
  · rw [if_pos hc]
  · rw [if_neg (by simp [hc]), if_pos (Or.inl hc)]
  · rw [if_neg (by simp [hc]), if_pos (Or.inr hc)]

/-- Every call the join-and-fetch stage makes is the join on the
resolved id or the clamped history call on the resolved id. -/
lemma joinAndFetch_mem (channel cid : String) (l : Int)
    (cur : Option String) (w : SlackWorld) :
    ∀ c ∈ (joinAndFetch channel cid l cur w).2,
      c = ApiCall.convJoin cid
        ∨ c = ApiCall.convHistory cid (min l 100) cur := by
  intro c hc
  rcases h : w.join cid with je | u
  · by_cases h1 : je.code = some "missing_scope"
    · rw [joinAndFetch_trace_stop channel cid l cur w je h (Or.inl h1)] at hc
      simpa using Or.inl (by simpa using hc)
    · by_cases h2 : je.code = some "not_in_channel"
      · rw [joinAndFetch_trace_stop channel cid l cur w je h (Or.inr (Or.inl h2))] at hc
        exact Or.inl (by simpa using hc)
      · by_cases h3 : je.code = some "channel_not_found"
        · rw [joinAndFetch_trace_stop channel cid l cur w je h
            (Or.inr (Or.inr h3))] at hc
          exact Or.inl (by simpa using hc)
        · rw [joinAndFetch_trace_recover channel cid l cur w je h h1 h2 h3] at hc
          simpa using hc
  · rw [joinAndFetch_trace_ok channel cid l cur w u h] at hc
    simpa using hc

/-- The join-and-fetch stage always opens with the join call. -/
lemma joinAndFetch_head (channel cid : String) (l : Int)
    (cur : Option String) (w : SlackWorld) :
    (joinAndFetch channel cid l cur w).2.head? = some (ApiCall.convJoin cid) := by
  rcases h : w.join cid with je | u
  · by_cases h1 : je.code = some "missing_scope"
    · rw [joinAndFetch_trace_stop channel cid l cur w je h (Or.inl h1)]; rfl
    · by_cases h2 : je.code = some "not_in_channel"
      · rw [joinAndFetch_trace_stop channel cid l cur w je h (Or.inr (Or.inl h2))]; rfl
      · by_cases h3 : je.code = some "channel_not_found"
        · rw [joinAndFetch_trace_stop channel cid l cur w je h (Or.inr (Or.inr h3))]; rfl
        · rw [joinAndFetch_trace_recover channel cid l cur w je h h1 h2 h3]; rfl
  · rw [joinAndFetch_trace_ok channel cid l cur w u h]; rfl

/-- Every call the resolution stage makes is one of the two listings or
the info lookup on the stripped token. -/
lemma resolveChannel_mem (cid : String) (w : SlackWorld) :
    ∀ c ∈ (resolveChannel cid w).2,
      c = ApiCall.listPublicChannels ∨ c = ApiCall.listPrivateChannels
        ∨ c = ApiCall.convInfo cid := by
  intro c hc
  unfold resolveChannel at hc
  rcases hp : w.publicList with e | pubs <;> rw [hp] at hc <;> dsimp only at hc
  · simp at hc; tauto
  · rcases hf : pubs.find? (fun ch => ch.name == cid) with _ | found <;>
      rw [hf] at hc <;> dsimp only at hc
    · rcases hv : w.privateList with e | privs <;> rw [hv] at hc <;>
        dsimp only at hc
      · simp at hc; tauto
      · rcases hg : privs.find? (fun ch => ch.name == cid) with _ | found <;>
          rw [hg] at hc <;> dsimp only at hc
        · rcases hi : w.info cid with e | chInfo <;> rw [hi] at hc <;>
            dsimp only at hc <;> simp at hc <;> tauto
        · simp at hc; tauto
    · simp at hc; tauto

/-- The resolution stage always opens with the public listing call. -/
lemma resolveChannel_head (cid : String) (w : SlackWorld) :
    ∃ rest, (resolveChannel cid w).2 = ApiCall.listPublicChannels :: rest := by
  unfold resolveChannel
  rcases hp : w.publicList with e | pubs <;> dsimp only
  · exact ⟨[], rfl⟩
  · rcases hf : pubs.find? (fun ch => ch.name == cid) with _ | found <;>
      rw [hf] <;> dsimp only
    · rcases hv : w.privateList with e | privs <;> dsimp only
      · exact ⟨[ApiCall.listPrivateChannels], rfl⟩
      · rcases hg : privs.find? (fun ch => ch.name == cid) with _ | found <;>
          rw [hg] <;> dsimp only
        · rcases hi : w.info cid with e | chInfo <;> dsimp only
          · exact ⟨[ApiCall.listPrivateChannels, ApiCall.convInfo cid], rfl⟩
          · exact ⟨[ApiCall.listPrivateChannels, ApiCall.convInfo cid], rfl⟩
        · exact ⟨[ApiCall.listPrivateChannels], rfl⟩
    · exact ⟨[], rfl⟩

/-- Unfolding the handler on a request with no channel. -/
lemma getMessages_none (req : GmRequest) (w : SlackWorld)
    (h : req.channel = none) :
    getMessages req w =
      (.missingChannel "channel required" [("channel", "string")]
         [("limit", "number (default: 10, max: 100)"),
          ("cursor", "string (for pagination)")],
       []) := by
  unfold getMessages
  rw [h]

/-- Unfolding the handler on an ID-shaped token: the stripped token goes
straight to the join-and-fetch stage. -/
lemma getMessages_id (req : GmRequest) (w : SlackWorld) (channel : String)
    (hc : req.channel = some channel)
    (hid : idShaped (stripHash channel) = true) :
    getMessages req w
      = joinAndFetch channel (stripHash channel) (parsedLimit req) req.cursor w := by
  unfold getMessages
  rw [hc]
  simp [hid]

/-- Unfolding the handler on a non-ID token whose resolution fails. -/
lemma getMessages_resolve_error (req : GmRequest) (w : SlackWorld)
    (channel : String) (r : GmResp) (cs : List ApiCall)
    (hc : req.channel = some channel)
    (hid : idShaped (stripHash channel) = false)
    (hres : resolveChannel (stripHash channel) w = (.error r, cs)) :
    getMessages req w = (r, cs) := by
  unfold getMessages
  rw [hc]
  simp [hid, hres]

/-- Unfolding the handler on a non-ID token whose resolution succeeds. -/
lemma getMessages_resolve_ok (req : GmRequest) (w : SlackWorld)
    (channel cid : String) (cs : List ApiCall)
    (hc : req.channel = some channel)
    (hid : idShaped (stripHash channel) = false)
    (hres : resolveChannel (stripHash channel) w = (.ok cid, cs)) :
    getMessages req w
      = ((joinAndFetch channel cid (parsedLimit req) req.cursor w).1,
         cs ++ (joinAndFetch channel cid (parsedLimit req) req.cursor w).2) := by
  unfold getMessages
  rw [hc]
  simp [hid, hres]

/-! ### Concrete fixtures for witnesses -/

/-- A public-channel listing used by witnesses. -/
def pubChannels : List SlackChannel := [⟨"C111", "general"⟩, ⟨"C222", "random"⟩]

/-- A private-channel listing used by witnesses. -/
def privChannels : List SlackChannel := [⟨"G333", "secret"⟩]

/-- A world where the listings answer, `conversations.info` rejects,
and join / history / postMessage succeed. -/
def okWorld : SlackWorld :=
  { publicList := .ok pubChannels
    privateList := .ok privChannels
    info := fun _ =>
      .error ⟨"channel_not_found", some "channel_not_found", none⟩
    join := fun _ => .ok ()
    history := fun _ _ _ => .ok ⟨some [], some false, none⟩
    postResult := fun _ => .ok ⟨some "1.1", some "C111", none⟩ }

/-- Like `okWorld`, but `conversations.info` resolves every token to a
channel with id `C999`. -/
def infoWorld : SlackWorld :=
  { okWorld with info := fun s => .ok ⟨"C999", s⟩ }

/-- Like `okWorld`, but `conversations.join` rejects with the given
`data.error` code and a `data.needed` scope. -/
def joinFailWorld (code : String) : SlackWorld :=
  { okWorld with
    join := fun _ => .error ⟨"An API error occurred", some code, some "channels:join"⟩ }

/-- Like `okWorld`, but `conversations.history` rejects with the given
optional `data.error` code. -/
def histFailWorld (code : Option String) : SlackWorld :=
  { okWorld with
    history := fun _ _ _ => .error ⟨"An API error occurred", code, none⟩ }

/-! ### Claims -/

/-- C1: for a non-ID-shaped token, resolution runs public listing, then
private listing, then a direct `conversations.info` lookup, in that
order, short-circuiting at the first success, whose channel id is the
result; and inside the endpoint the resolution calls come first. -/
theorem claim1_resolution_order (cid : String) (w : SlackWorld) :
    (∃ rest, (resolveChannel cid w).2 = ApiCall.listPublicChannels :: rest) ∧
    (∀ pubs found, w.publicList = .ok pubs →
       pubs.find? (fun ch => ch.name == cid) = some found →
       resolveChannel cid w = (.ok found.id, [ApiCall.listPublicChannels])) ∧
    (∀ pubs privs found, w.publicList = .ok pubs →
       pubs.find? (fun ch => ch.name == cid) = none →
       w.privateList = .ok privs →
       privs.find? (fun ch => ch.name == cid) = some found →
       resolveChannel cid w
         = (.ok found.id,
            [ApiCall.listPublicChannels, ApiCall.listPrivateChannels])) ∧
    (∀ pubs privs chInfo, w.publicList = .ok pubs →
       pubs.find? (fun ch => ch.name == cid) = none →
       w.privateList = .ok privs →
       privs.find? (fun ch => ch.name == cid) = none →
       w.info cid = .ok chInfo →
       resolveChannel cid w
         = (.ok chInfo.id,
            [ApiCall.listPublicChannels, ApiCall.listPrivateChannels,
             ApiCall.convInfo cid])) ∧
    (∀ req w' channel, req.channel = some channel →
       idShaped (stripHash channel) = false →
       ∃ rest, (getMessages req w').2
         = (resolveChannel (stripHash channel) w').2 ++ rest) := by
  refine ⟨resolveChannel_head cid w, ?_, ?_, ?_, ?_⟩
  · intro pubs found hp hf
    unfold resolveChannel
    rw [hp]; dsimp only
    rw [hf]
  · intro pubs privs found hp hf hv hg
    unfold resolveChannel
    rw [hp]; dsimp only
    rw [hf]; dsimp only
    rw [hv]; dsimp only
    rw [hg]
  · intro pubs privs chInfo hp hf hv hg hi
    unfold resolveChannel
    rw [hp]; dsimp only
    rw [hf]; dsimp only
    rw [hv]; dsimp only
    rw [hg]; dsimp only
    rw [hi]
  · intro req w' channel hc hid
    rcases hres : resolveChannel (stripHash channel) w' with ⟨res, cs⟩
    rcases res with r | cid'
    · rw [getMessages_resolve_error req w' channel r cs hc hid hres]
      exact ⟨[], by simp⟩
    · rw [getMessages_resolve_ok req w' channel cid' cs hc hid hres]
      exact ⟨(joinAndFetch channel cid' (parsedLimit req) req.cursor w').2, rfl⟩

/-- Witness for C1 at concrete inputs: a public hit resolves from the
public listing alone, a private-only name takes both listings, a name
known only to `conversations.info` takes all three steps, and the
endpoint trace extends the resolution trace. -/
theorem claim1_witness :
    resolveChannel "general" okWorld
      = (.ok "C111", [ApiCall.listPublicChannels]) ∧
    resolveChannel "secret" okWorld
      = (.ok "G333",
         [ApiCall.listPublicChannels, ApiCall.listPrivateChannels]) ∧
    resolveChannel "mystery" infoWorld
      = (.ok "C999",
         [ApiCall.listPublicChannels, ApiCall.listPrivateChannels,
          ApiCall.convInfo "mystery"]) ∧
    (∃ rest, (getMessages ⟨some "#general", none, none⟩ okWorld).2
      = (resolveChannel (stripHash "#general") okWorld).2 ++ rest) := by
  refine ⟨?_, ?_, ?_, ?_⟩
  · exact (claim1_resolution_order "general" okWorld).2.1 pubChannels
      ⟨"C111", "general"⟩ rfl (by decide)
  · exact (claim1_resolution_order "secret" okWorld).2.2.1 pubChannels
      privChannels ⟨"G333", "secret"⟩ rfl (by decide) rfl (by decide)
  · exact (claim1_resolution_order "mystery" infoWorld).2.2.2.1 pubChannels
      privChannels ⟨"C999", "mystery"⟩ rfl (by decide) rfl (by decide) rfl
  · exact (claim1_resolution_order "general" okWorld).2.2.2.2
      ⟨some "#general", none, none⟩ okWorld "#general" rfl (by decide)

/-- C2: an ID-shaped token (first character `C`, `G`, `D` or `U` after
stripping `#`) skips both listings and the info lookup; the stripped
token itself is the channel argument of the join call (which comes
first) and of any history call. -/
theorem claim2_id_shaped_bypass (req : GmRequest) (w : SlackWorld)
    (channel : String) (hc : req.channel = some channel)
    (hid : idShaped (stripHash channel) = true) :
    (∀ c ∈ (getMessages req w).2,
       c ≠ ApiCall.listPublicChannels ∧ c ≠ ApiCall.listPrivateChannels ∧
       ∀ s, c ≠ ApiCall.convInfo s) ∧
    (getMessages req w).2.head? = some (ApiCall.convJoin (stripHash channel)) ∧
    (∀ ch l cur, ApiCall.convHistory ch l cur ∈ (getMessages req w).2 →
       ch = stripHash channel) := by
  rw [getMessages_id req w channel hc hid]
  refine ⟨?_, joinAndFetch_head channel (stripHash channel) (parsedLimit req)
    req.cursor w, ?_⟩
  · intro c hcm
    rcases joinAndFetch_mem channel (stripHash channel) (parsedLimit req)
        req.cursor w c hcm with h | h <;> subst h <;>
      exact ⟨by simp, by simp, by simp⟩
  · intro ch l cur hmem
    rcases joinAndFetch_mem channel (stripHash channel) (parsedLimit req)
        req.cursor w _ hmem with h | h
    · simp at h
    · simp only [ApiCall.convHistory.injEq] at h
      exact h.1

/-- Witness for C2 on the ID-shaped token `#C555`. -/
theorem claim2_witness :
    (∀ c ∈ (getMessages ⟨some "#C555", some 5, none⟩ okWorld).2,
       c ≠ ApiCall.listPublicChannels ∧ c ≠ ApiCall.listPrivateChannels ∧
       ∀ s, c ≠ ApiCall.convInfo s) ∧
    (getMessages ⟨some "#C555", some 5, none⟩ okWorld).2.head?
      = some (ApiCall.convJoin (stripHash "#C555")) ∧
    (∀ ch l cur,
       ApiCall.convHistory ch l cur
         ∈ (getMessages ⟨some "#C555", some 5, none⟩ okWorld).2 →
       ch = stripHash "#C555") :=
  claim2_id_shaped_bypass ⟨some "#C555", some 5, none⟩ okWorld "#C555" rfl
    (by decide)

/-- C3: after resolution the handler joins the channel; a recoverable
join failure (anything but the three checked codes, e.g.
`already_in_channel`) still reaches the history fetch; `missing_scope`
is a distinct 403 naming the needed scope; `not_in_channel` and
`channel_not_found` become distinct error responses with no history
fetch. -/
theorem claim3_join_error_handling (channel cid : String) (l : Int)
    (cur : Option String) (w : SlackWorld) (je : SlackErr)
    (hj : w.join cid = .error je) :
    (je.code ≠ some "missing_scope" → je.code ≠ some "not_in_channel" →
       je.code ≠ some "channel_not_found" →
       ApiCall.convHistory cid (min l 100) cur
         ∈ (joinAndFetch channel cid l cur w).2) ∧
    (je.code = some "missing_scope" →
       joinAndFetch channel cid l cur w
         = (.missingScope "Bot missing required scope" je.needed
              "Add \"channels:join\" scope to your bot app" missingScopeSteps,
            [ApiCall.convJoin cid]) ∧
       (joinAndFetch channel cid l cur w).1.status = 403) ∧
    (je.code = some "not_in_channel" →
       joinAndFetch channel cid l cur w
         = (.memberRequired "Bot is not a member of this channel"
              "Add the bot to the channel first. Go to Slack > channel > Add members > search for your bot app"
              ("Invite the bot to #" ++ channel ++ " using Slack UI, then try again")
              cid,
            [ApiCall.convJoin cid]) ∧
       (joinAndFetch channel cid l cur w).1.status = 403) ∧
    (je.code = some "channel_not_found" →
       joinAndFetch channel cid l cur w
         = (.notFound "Channel not found" "Use channel ID instead of name"
              "Try /api/list-channels to get all available channels with their IDs",
            [ApiCall.convJoin cid]) ∧
       (joinAndFetch channel cid l cur w).1.status = 404) := by
  refine ⟨?_, ?_, ?_, ?_⟩
  · intro h1 h2 h3
    rw [joinAndFetch_trace_recover channel cid l cur w je hj h1 h2 h3]
    simp
  · intro hs
    have he : joinAndFetch channel cid l cur w
        = (.missingScope "Bot missing required scope" je.needed
             "Add \"channels:join\" scope to your bot app" missingScopeSteps,
           [ApiCall.convJoin cid]) := by
      unfold joinAndFetch
      rw [hj]; dsimp only
      rw [if_pos hs]
    exact ⟨he, by rw [he]; rfl⟩
  · intro hs
    have he : joinAndFetch channel cid l cur w
        = (outerCatch channel cid je, [ApiCall.convJoin cid]) := by
      unfold joinAndFetch
      rw [hj]; dsimp only
      rw [if_neg (by simp [hs]), if_pos (Or.inl hs)]
    have ho : outerCatch channel cid je
        = .memberRequired "Bot is not a member of this channel"
            "Add the bot to the channel first. Go to Slack > channel > Add members > search for your bot app"
            ("Invite the bot to #" ++ channel ++ " using Slack UI, then try again")
            cid := by
      unfold outerCatch
      rw [if_pos hs]
    rw [he, ho]
    exact ⟨rfl, rfl⟩
  · intro hs
    have he : joinAndFetch channel cid l cur w
        = (outerCatch channel cid je, [ApiCall.convJoin cid]) := by
      unfold joinAndFetch
      rw [hj]; dsimp only
      rw [if_neg (by simp [hs]), if_pos (Or.inr hs)]
    have ho : outerCatch channel cid je
        = .notFound "Channel not found" "Use channel ID instead of name"
            "Try /api/list-channels to get all available channels with their IDs" := by
      unfold outerCatch
      rw [if_neg (by rw [hs]; decide), if_pos hs]
    rw [he, ho]
    exact ⟨rfl, rfl⟩

/-- Witness for C3: the four join outcomes at concrete worlds. -/
theorem claim3_witness :
    (ApiCall.convHistory "C555" (min 10 100) none
       ∈ (joinAndFetch "#c" "C555" 10 none
            (joinFailWorld "already_in_channel")).2) ∧
    (joinAndFetch "#c" "C555" 10 none (joinFailWorld "missing_scope")
       = (.missingScope "Bot missing required scope" (some "channels:join")
            "Add \"channels:join\" scope to your bot app" missingScopeSteps,
          [ApiCall.convJoin "C555"]) ∧
     (joinAndFetch "#c" "C555" 10 none
        (joinFailWorld "missing_scope")).1.status = 403) ∧
    (joinAndFetch "#c" "C555" 10 none (joinFailWorld "not_in_channel")
       = (.memberRequired "Bot is not a member of this channel"
            "Add the bot to the channel first. Go to Slack > channel > Add members > search for your bot app"
            ("Invite the bot to #" ++ "#c" ++ " using Slack UI, then try again")
            "C555",
          [ApiCall.convJoin "C555"]) ∧
     (joinAndFetch "#c" "C555" 10 none
        (joinFailWorld "not_in_channel")).1.status = 403) ∧
    (joinAndFetch "#c" "C555" 10 none (joinFailWorld "channel_not_found")
       = (.notFound "Channel not found" "Use channel ID instead of name"
            "Try /api/list-channels to get all available channels with their IDs",
          [ApiCall.convJoin "C555"]) ∧
     (joinAndFetch "#c" "C555" 10 none
        (joinFailWorld "channel_not_found")).1.status = 404) := by
  refine ⟨?_, ?_, ?_, ?_⟩
  · exact (claim3_join_error_handling "#c" "C555" 10 none
      (joinFailWorld "already_in_channel")
      ⟨"An API error occurred", some "already_in_channel", some "channels:join"⟩
      rfl).1 (by decide) (by decide) (by decide)
  · exact (claim3_join_error_handling "#c" "C555" 10 none
      (joinFailWorld "missing_scope")
      ⟨"An API error occurred", some "missing_scope", some "channels:join"⟩
      rfl).2.1 rfl
  · exact (claim3_join_error_handling "#c" "C555" 10 none
      (joinFailWorld "not_in_channel")
      ⟨"An API error occurred", some "not_in_channel", some "channels:join"⟩
      rfl).2.2.1 rfl
  · exact (claim3_join_error_handling "#c" "C555" 10 none
      (joinFailWorld "channel_not_found")
      ⟨"An API error occurred", some "channel_not_found", some "channels:join"⟩
      rfl).2.2.2 rfl

/-- C4: a non-ID token missing from both listings whose info lookup
rejects yields the 404 with the hint and the pointer to
`/api/list-channels`, and no history call (indeed no join either). -/
theorem claim4_resolution_all_fail (req : GmRequest) (w : SlackWorld)
    (channel : String) (pubs privs : List SlackChannel) (ie : SlackErr)
    (hc : req.channel = some channel)
    (hid : idShaped (stripHash channel) = false)
    (hpub : w.publicList = .ok pubs)
    (hfp : pubs.find? (fun ch => ch.name == stripHash channel) = none)
    (hpriv : w.privateList = .ok privs)
    (hfv : privs.find? (fun ch => ch.name == stripHash channel) = none)
    (hinfo : w.info (stripHash channel) = .error ie) :
    getMessages req w
      = (.resolveNotFound (resolveErrMsg (stripHash channel))
           "Use channel ID instead of name"
           "Try using C1234567890 format instead of \"general\""
           "Use /api/list-channels endpoint to get channel IDs",
         [ApiCall.listPublicChannels, ApiCall.listPrivateChannels,
          ApiCall.convInfo (stripHash channel)]) ∧
    (getMessages req w).1.status = 404 ∧
    ∀ ch l cur, ApiCall.convHistory ch l cur ∉ (getMessages req w).2 := by
  have hres : resolveChannel (stripHash channel) w
      = (.error (.resolveNotFound (resolveErrMsg (stripHash channel))
           "Use channel ID instead of name"
           "Try using C1234567890 format instead of \"general\""
           "Use /api/list-channels endpoint to get channel IDs"),
         [ApiCall.listPublicChannels, ApiCall.listPrivateChannels,
          ApiCall.convInfo (stripHash channel)]) := by
    unfold resolveChannel
    rw [hpub]; dsimp only
    rw [hfp]; dsimp only
    rw [hpriv]; dsimp only
    rw [hfv]; dsimp only
    rw [hinfo]
  have he := getMessages_resolve_error req w channel _ _ hc hid hres
  rw [he]
  refine ⟨rfl, rfl, ?_⟩
  intro ch l cur hmem
  simp at hmem

/-- Witness for C4: the unknown name `nope` against `okWorld`. -/
theorem claim4_witness :
    getMessages ⟨some "nope", none, none⟩ okWorld
      = (.resolveNotFound (resolveErrMsg (stripHash "nope"))
           "Use channel ID instead of name"
           "Try using C1234567890 format instead of \"general\""
           "Use /api/list-channels endpoint to get channel IDs",
         [ApiCall.listPublicChannels, ApiCall.listPrivateChannels,
          ApiCall.convInfo (stripHash "nope")]) ∧
    (getMessages ⟨some "nope", none, none⟩ okWorld).1.status = 404 ∧
    (∀ ch l cur, ApiCall.convHistory ch l cur
       ∉ (getMessages ⟨some "nope", none, none⟩ okWorld).2) :=
  claim4_resolution_all_fail ⟨some "nope", none, none⟩ okWorld "nope"
    pubChannels privChannels
    ⟨"channel_not_found", some "channel_not_found", none⟩
    rfl (by decide) rfl (by decide) rfl (by decide) rfl

/-- C5: the outer catch translates Slack error codes instead of passing
them through: `not_in_channel` becomes the 403 explaining that the bot
must be added, `channel_not_found` the 404 with the listing hint, and
anything else the 500 carrying the message and a details field; failed
history fetches are answered by exactly this translation. -/
theorem claim5_error_translation (channel cid : String) (e : SlackErr) :
    (e.code = some "not_in_channel" →
       outerCatch channel cid e
         = .memberRequired "Bot is not a member of this channel"
             "Add the bot to the channel first. Go to Slack > channel > Add members > search for your bot app"
             ("Invite the bot to #" ++ channel ++ " using Slack UI, then try again")
             cid ∧
       (outerCatch channel cid e).status = 403) ∧
    (e.code = some "channel_not_found" →
       outerCatch channel cid e
         = .notFound "Channel not found" "Use channel ID instead of name"
             "Try /api/list-channels to get all available channels with their IDs" ∧
       (outerCatch channel cid e).status = 404) ∧
    (e.code ≠ some "not_in_channel" → e.code ≠ some "channel_not_found" →
       outerCatch channel cid e
         = .upstreamFailure e.message e.code
             "Failed to retrieve messages from Slack" ∧
       (outerCatch channel cid e).status = 500) ∧
    (∀ l cur w calls, w.history cid (min l 100) cur = .error e →
       (fetchHistory channel cid l cur w calls).1 = outerCatch channel cid e) := by
  refine ⟨?_, ?_, ?_, ?_⟩
  · intro hs
    have ho : outerCatch channel cid e
        = .memberRequired "Bot is not a member of this channel"
            "Add the bot to the channel first. Go to Slack > channel > Add members > search for your bot app"
            ("Invite the bot to #" ++ channel ++ " using Slack UI, then try again")
            cid := by
      unfold outerCatch
      rw [if_pos hs]
    exact ⟨ho, by rw [ho]; rfl⟩
  · intro hs
    have ho : outerCatch channel cid e
        = .notFound "Channel not found" "Use channel ID instead of name"
            "Try /api/list-channels to get all available channels with their IDs" := by
      unfold outerCatch
      rw [if_neg (by rw [hs]; decide), if_pos hs]
    exact ⟨ho, by rw [ho]; rfl⟩
  · intro h1 h2
    have ho : outerCatch channel cid e
        = .upstreamFailure e.message e.code
            "Failed to retrieve messages from Slack" := by
      unfold outerCatch
      rw [if_neg h1, if_neg h2]
    exact ⟨ho, by rw [ho]; rfl⟩
  · intro l cur w calls hh
    exact fetchHistory_error channel cid l cur w calls e hh

/-- Witness for C5: the three translations and the failed-fetch route
at concrete errors. -/
theorem claim5_witness :
    (outerCatch "#general" "C111"
        ⟨"An API error occurred", some "not_in_channel", none⟩
       = .memberRequired "Bot is not a member of this channel"
           "Add the bot to the channel first. Go to Slack > channel > Add members > search for your bot app"
           ("Invite the bot to #" ++ "#general" ++ " using Slack UI, then try again")
           "C111" ∧
     (outerCatch "#general" "C111"
        ⟨"An API error occurred", some "not_in_channel", none⟩).status = 403) ∧
    (outerCatch "#general" "C111"
        ⟨"An API error occurred", some "channel_not_found", none⟩
       = .notFound "Channel not found" "Use channel ID instead of name"
           "Try /api/list-channels to get all available channels with their IDs" ∧
     (outerCatch "#general" "C111"
        ⟨"An API error occurred", some "channel_not_found", none⟩).status = 404) ∧
    (outerCatch "#general" "C111"
        ⟨"An API error occurred", some "ratelimited", none⟩
       = .upstreamFailure "An API error occurred" (some "ratelimited")
           "Failed to retrieve messages from Slack" ∧
     (outerCatch "#general" "C111"
        ⟨"An API error occurred", some "ratelimited", none⟩).status = 500) ∧
    (fetchHistory "#general" "C111" 10 none
        (histFailWorld (some "ratelimited")) [ApiCall.convJoin "C111"]).1
      = outerCatch "#general" "C111"
          ⟨"An API error occurred", some "ratelimited", none⟩ := by
  refine ⟨?_, ?_, ?_, ?_⟩
  · exact (claim5_error_translation "#general" "C111"
      ⟨"An API error occurred", some "not_in_channel", none⟩).1 rfl
  · exact (claim5_error_translation "#general" "C111"
      ⟨"An API error occurred", some "channel_not_found", none⟩).2.1 rfl
  · exact (claim5_error_translation "#general" "C111"
      ⟨"An API error occurred", some "ratelimited", none⟩).2.2.1
      (by decide) (by decide)
  · exact (claim5_error_translation "#general" "C111"
      ⟨"An API error occurred", some "ratelimited", none⟩).2.2.2
      10 none (histFailWorld (some "ratelimited")) [ApiCall.convJoin "C111"] rfl

/-- When the text resolves, the webhook performs exactly one upstream
call: `chat.postMessage` with the payload it built. -/
lemma webhook_trace (b : WhBody) (dc : Option String) (w : SlackWorld)
    (t : String) (ht : whGet b WhFields.text = some t) :
    (webhook b dc w).2 = [ApiCall.postMessage (webhookPayload b dc t)] := by
  unfold webhook
  rw [ht]
  dsimp only
  rcases hpost : w.postResult (webhookPayload b dc t) with e | r <;> rfl

/-- C6: both validated endpoints reject before any upstream call: a
send-message request lacking channel or message, and a webhook request
lacking text, get the 400 listing required and optional fields while
the call trace stays empty. -/
theorem claim6_validation_atomic :
    (∀ req w, req.channel = none ∨ req.message = none →
       sendMessage req w
         = (.missingFields "channel and message required"
              [("channel", "string"), ("message", "string")]
              [("thread_ts", "string"), ("blocks", "array"),
               ("attachments", "array")],
            []) ∧
       (sendMessage req w).1.status = 400) ∧
    (∀ b dc w, whGet b WhFields.text = none →
       webhook b dc w
         = (.missingText "Missing required field: text" ["text"]
              ["channel", "username", "icon_url", "icon_emoji",
               "attachments"],
            []) ∧
       (webhook b dc w).1.status = 400) := by
  constructor
  · intro req w h
    have he : sendMessage req w
        = (.missingFields "channel and message required"
             [("channel", "string"), ("message", "string")]
             [("thread_ts", "string"), ("blocks", "array"),
              ("attachments", "array")],
           []) := by
      unfold sendMessage
      rcases hch : req.channel with _ | ch
      · dsimp only
      · rcases hm : req.message with _ | m
        · dsimp only
        · rw [hch, hm] at h
          simp at h
    exact ⟨he, by rw [he]; rfl⟩
  · intro b dc w h
    have he : webhook b dc w
        = (.missingText "Missing required field: text" ["text"]
             ["channel", "username", "icon_url", "icon_emoji",
              "attachments"],
           []) := by
      unfold webhook
      rw [h]
    exact ⟨he, by rw [he]; rfl⟩

/-- Witness for C6: a send-message request with no message and a
webhook body with no text are both rejected with an empty trace. -/
theorem claim6_witness :
    (sendMessage ⟨some "#general", none, none, none, none⟩ okWorld
       = (.missingFields "channel and message required"
            [("channel", "string"), ("message", "string")]
            [("thread_ts", "string"), ("blocks", "array"),
             ("attachments", "array")],
          []) ∧
     (sendMessage ⟨some "#general", none, none, none, none⟩ okWorld).1.status
       = 400) ∧
    (webhook ⟨⟨none, some "#alerts", none, none, none, none⟩, none⟩ none okWorld
       = (.missingText "Missing required field: text" ["text"]
            ["channel", "username", "icon_url", "icon_emoji", "attachments"],
          []) ∧
     (webhook ⟨⟨none, some "#alerts", none, none, none, none⟩, none⟩ none
        okWorld).1.status = 400) :=
  ⟨claim6_validation_atomic.1 ⟨some "#general", none, none, none, none⟩
     okWorld (Or.inr rfl),
   claim6_validation_atomic.2 ⟨⟨none, some "#alerts", none, none, none, none⟩,
     none⟩ none okWorld rfl⟩

/-- C7: serving is stateless — the answer at any position of a request
sequence depends only on the request and upstream
responses at that position, never on earlier requests — and every non-ID request re-runs
the lookup chain, starting with the public listing. -/
theorem claim7_stateless_uncached :
    (∀ (s t : List (GmRequest × SlackWorld)) (i : Nat)
       (p : GmRequest × SlackWorld),
       s[i]? = some p → t[i]? = some p →
       (serveAll s)[i]? = (serveAll t)[i]?) ∧
    (∀ req w channel, req.channel = some channel →
       idShaped (stripHash channel) = false →
       ∃ rest, (getMessages req w).2 = ApiCall.listPublicChannels :: rest) := by
  constructor
  · intro s t i p hs ht
    simp only [serveAll, List.getElem?_map, hs, ht]
  · intro req w channel hc hid
    obtain ⟨rest0, hh⟩ := resolveChannel_head (stripHash channel) w
    rcases hres : resolveChannel (stripHash channel) w with ⟨res, cs⟩
    have hcs : cs = ApiCall.listPublicChannels :: rest0 := by
      rw [hres] at hh
      exact hh
    rcases res with r | cid'
    · rw [getMessages_resolve_error req w channel r cs hc hid hres, hcs]
      exact ⟨rest0, rfl⟩
    · rw [getMessages_resolve_ok req w channel cid' cs hc hid hres, hcs]
      exact ⟨rest0 ++ (joinAndFetch channel cid' (parsedLimit req)
        req.cursor w).2, rfl⟩

/-- Witness for C7: two sequences agreeing at position 0 answer it
identically, and a concrete non-ID request opens with the public
listing call. -/
theorem claim7_witness :
    (serveAll [(⟨some "general", none, none⟩, okWorld)])[0]?
      = (serveAll [(⟨some "general", none, none⟩, okWorld),
          (⟨some "random", some 3, none⟩, infoWorld)])[0]? ∧
    ∃ rest, (getMessages ⟨some "general", none, none⟩ okWorld).2
      = ApiCall.listPublicChannels :: rest :=
  ⟨claim7_stateless_uncached.1 [(⟨some "general", none, none⟩, okWorld)]
     [(⟨some "general", none, none⟩, okWorld),
      (⟨some "random", some 3, none⟩, infoWorld)]
     0 (⟨some "general", none, none⟩, okWorld) rfl rfl,
   claim7_stateless_uncached.2 ⟨some "general", none, none⟩ okWorld
     "general" rfl (by decide)⟩

/-- C8: every `conversations.history` call the endpoint makes carries
`Math.min(limit, 100)` where `limit` is the parsed request limit or the
default `10`; a supplied numeric limit is thus clamped to at most 100,
and an absent limit forwards exactly 10. -/
theorem claim8_limit_clamp (req : GmRequest) (w : SlackWorld) :
    (∀ ch l cur, ApiCall.convHistory ch l cur ∈ (getMessages req w).2 →
       l = min (parsedLimit req) 100) ∧
    (∀ n, req.limit = some n →
       parsedLimit req = n ∧ min (parsedLimit req) 100 ≤ 100) ∧
    (req.limit = none →
       parsedLimit req = 10 ∧ min (parsedLimit req) 100 = 10) := by
  refine ⟨?_, ?_, ?_⟩
  · intro ch l cur hmem
    rcases hch : req.channel with _ | channel
    · rw [getMessages_none req w hch] at hmem
      simp at hmem
    · by_cases hid : idShaped (stripHash channel) = true
      · rw [getMessages_id req w channel hch hid] at hmem
        rcases joinAndFetch_mem channel (stripHash channel) (parsedLimit req)
            req.cursor w _ hmem with h | h
        · simp at h
        · simp only [ApiCall.convHistory.injEq] at h
          exact h.2.1
      · rw [Bool.not_eq_true] at hid
        rcases hres : resolveChannel (stripHash channel) w with ⟨res, cs⟩
        have hmemres : ∀ c ∈ cs,
            c = ApiCall.listPublicChannels ∨ c = ApiCall.listPrivateChannels
              ∨ c = ApiCall.convInfo (stripHash channel) := by
          intro c hcm
          refine resolveChannel_mem (stripHash channel) w c ?_
          rw [hres]
          exact hcm
        rcases res with r | cid'
        · rw [getMessages_resolve_error req w channel r cs hch hid hres]
            at hmem
          rcases hmemres _ hmem with h | h | h <;> simp at h
        · rw [getMessages_resolve_ok req w channel cid' cs hch hid hres]
            at hmem
          rcases List.mem_append.mp hmem with h | h
          · rcases hmemres _ h with h' | h' | h' <;> simp at h'
          · rcases joinAndFetch_mem channel cid' (parsedLimit req)
                req.cursor w _ h with h' | h'
            · simp at h'
            · simp only [ApiCall.convHistory.injEq] at h'
              exact h'.2.1
  · intro n hn
    constructor
    · unfold parsedLimit
      rw [hn]
    · exact min_le_right _ _
  · intro hn
    have hp : parsedLimit req = 10 := by
      unfold parsedLimit
      rw [hn]
    exact ⟨hp, by rw [hp]; decide⟩

/-- Witness for C8: the default-limit request forwards exactly 10, and
a supplied limit of 500 is clamped. -/
theorem claim8_witness :
    (ApiCall.convHistory "C555" 10 none
       ∈ (getMessages ⟨some "#C555", none, none⟩ okWorld).2 →
     (10 : Int) = min (parsedLimit ⟨some "#C555", none, none⟩) 100) ∧
    (parsedLimit ⟨some "#C555", none, none⟩ = 10 ∧
     min (parsedLimit ⟨some "#C555", none, none⟩) 100 = 10) ∧
    (parsedLimit ⟨some "#C555", some 500, none⟩ = 500 ∧
     min (parsedLimit ⟨some "#C555", some 500, none⟩) 100 ≤ 100) :=
  ⟨(claim8_limit_clamp ⟨some "#C555", none, none⟩ okWorld).1 "C555" 10 none,
   (claim8_limit_clamp ⟨some "#C555", none, none⟩ okWorld).2.2 rfl,
   (claim8_limit_clamp ⟨some "#C555", some 500, none⟩ okWorld).2.1 500 rfl⟩

/-- C9: the webhook posts exactly one message; its payload never has an
`attachments` field, carries an array-valued `attachments` input as
`blocks`, and has no `blocks` when the input is absent or not an
array. -/
theorem claim9_attachments_become_blocks (b : WhBody) (dc : Option String)
    (w : SlackWorld) (t : String)
    (ht : whGet b WhFields.text = some t) :
    (webhook b dc w).2 = [ApiCall.postMessage (webhookPayload b dc t)] ∧
    (webhookPayload b dc t).attachments = none ∧
    (∀ xs, whGet b WhFields.attachments = some (JsonVal.arr xs) →
       (webhookPayload b dc t).blocks = some xs) ∧
    ((∀ xs, whGet b WhFields.attachments ≠ some (JsonVal.arr xs)) →
       (webhookPayload b dc t).blocks = none) := by
  refine ⟨webhook_trace b dc w t ht, rfl, ?_, ?_⟩
  · intro xs hxs
    unfold webhookPayload
    dsimp only
    rw [hxs]
  · intro hne
    unfold webhookPayload
    dsimp only
    rcases hatt : whGet b WhFields.attachments with _ | v
    · rfl
    · rcases v with xs | _
      · exact absurd hatt (hne xs)
      · rfl

/-- Witness for C9: an array-valued `attachments` on the nested payload
becomes `blocks`; a non-array one is dropped. -/
theorem claim9_witness :
    ((webhook ⟨⟨some "hi", none, none, none, none, none⟩,
        some ⟨none, none, none, none, none, some (.arr ["b1", "b2"])⟩⟩
        none okWorld).2
      = [ApiCall.postMessage (webhookPayload
          ⟨⟨some "hi", none, none, none, none, none⟩,
           some ⟨none, none, none, none, none, some (.arr ["b1", "b2"])⟩⟩
          none "hi")] ∧
     (webhookPayload ⟨⟨some "hi", none, none, none, none, none⟩,
        some ⟨none, none, none, none, none, some (.arr ["b1", "b2"])⟩⟩
        none "hi").attachments = none ∧
     (∀ xs, whGet ⟨⟨some "hi", none, none, none, none, none⟩,
          some ⟨none, none, none, none, none, some (.arr ["b1", "b2"])⟩⟩
          WhFields.attachments = some (JsonVal.arr xs) →
        (webhookPayload ⟨⟨some "hi", none, none, none, none, none⟩,
           some ⟨none, none, none, none, none, some (.arr ["b1", "b2"])⟩⟩
           none "hi").blocks = some xs) ∧
     ((∀ xs, whGet ⟨⟨some "hi", none, none, none, none, none⟩,
          some ⟨none, none, none, none, none, some (.arr ["b1", "b2"])⟩⟩
          WhFields.attachments ≠ some (JsonVal.arr xs)) →
        (webhookPayload ⟨⟨some "hi", none, none, none, none, none⟩,
           some ⟨none, none, none, none, none, some (.arr ["b1", "b2"])⟩⟩
           none "hi").blocks = none)) ∧
    (∀ xs, whGet ⟨⟨some "hi", none, none, none, none, some .nonArray⟩, none⟩
         WhFields.attachments ≠ some (JsonVal.arr xs)) ∧
    (webhookPayload ⟨⟨some "hi", none, none, none, none, some .nonArray⟩,
       none⟩ none "hi").blocks = none := by
  refine ⟨claim9_attachments_become_blocks
    ⟨⟨some "hi", none, none, none, none, none⟩,
     some ⟨none, none, none, none, none, some (.arr ["b1", "b2"])⟩⟩
    none okWorld "hi" rfl, fun xs h => by simp [whGet, orD] at h, ?_⟩
  exact (claim9_attachments_become_blocks
    ⟨⟨some "hi", none, none, none, none, some .nonArray⟩, none⟩
    none okWorld "hi" rfl).2.2.2 (fun xs h => by simp [whGet, orD] at h)

/-- C10: in the webhook payload `icon_url` beats `icon_emoji`: a
resolved `icon_url` is forwarded with no `icon_emoji`; with no
`icon_url` the resolved `icon_emoji` (if any) is forwarded; never
both. -/
theorem claim10_icon_precedence (b : WhBody) (dc : Option String)
    (w : SlackWorld) (t : String)
    (ht : whGet b WhFields.text = some t) :
    (webhook b dc w).2 = [ApiCall.postMessage (webhookPayload b dc t)] ∧
    (∀ u, whGet b WhFields.icon_url = some u →
       (webhookPayload b dc t).icon_url = some u ∧
       (webhookPayload b dc t).icon_emoji = none) ∧
    (whGet b WhFields.icon_url = none →
       (webhookPayload b dc t).icon_url = none ∧
       (webhookPayload b dc t).icon_emoji = whGet b WhFields.icon_emoji) ∧
    ((webhookPayload b dc t).icon_url = none ∨
     (webhookPayload b dc t).icon_emoji = none) := by
  refine ⟨webhook_trace b dc w t ht, ?_, ?_, ?_⟩
  · intro u hu
    constructor <;> (unfold webhookPayload; dsimp only; rw [hu])
  · intro hu
    constructor <;> (unfold webhookPayload; dsimp only; rw [hu])
  · rcases hu : whGet b WhFields.icon_url with _ | u
    · exact Or.inl (by unfold webhookPayload; dsimp only; rw [hu])
    · exact Or.inr (by unfold webhookPayload; dsimp only; rw [hu])

/-- Witness for C10: a body with both icons forwards only the URL; a
body with only an emoji forwards the emoji. -/
theorem claim10_witness :
    ((webhookPayload ⟨⟨some "hi", none, none, some "http://i.png",
        some ":warning:", none⟩, none⟩ none "hi").icon_url
       = some "http://i.png" ∧
     (webhookPayload ⟨⟨some "hi", none, none, some "http://i.png",
        some ":warning:", none⟩, none⟩ none "hi").icon_emoji = none) ∧
    ((webhookPayload ⟨⟨some "hi", none, none, none, some ":warning:",
        none⟩, none⟩ none "hi").icon_url = none ∧
     (webhookPayload ⟨⟨some "hi", none, none, none, some ":warning:",
        none⟩, none⟩ none "hi").icon_emoji
       = whGet ⟨⟨some "hi", none, none, none, some ":warning:", none⟩, none⟩
           WhFields.icon_emoji) :=
  ⟨(claim10_icon_precedence ⟨⟨some "hi", none, none, some "http://i.png",
      some ":warning:", none⟩, none⟩ none okWorld "hi" rfl).2.1
      "http://i.png" rfl,
   (claim10_icon_precedence ⟨⟨some "hi", none, none, none, some ":warning:",
      none⟩, none⟩ none okWorld "hi" rfl).2.2.1 rfl⟩

end SlackBot
